import Mathlib

/-!
Shallow embedding of `CameraEncoderBridge`
(`src/app/src/main/cpp/camera/camera_encoder_bridge.{h,cpp}`).

Session-manager part: the state fields mirror the data members of the
class; a `Bool` handle field is `true` exactly when the corresponding
NDK pointer member is non-null.  The fallible NDK calls made by
`startCapture` are modelled by a failure schedule `stepOk : Nat → Bool`
(step numbers follow the order of the calls in the source).  Every
NDK release/free call executed by `cleanup` is recorded in a
`List Res`, so leak/double-free behaviour is visible in the model.

Frame-normalizer part: plane bytes are `List Nat` (a byte per entry,
reads through `List.getD · 0`), and `onImageAvailable` is modelled as
a pure function from the acquired image (or `none`) and the presence
of a frame callback to the observable effects of the handler: whether
the image was released, whether the I420 buffer was allocated, and the
argument tuple of the consumer-callback invocation (if any).
-/

namespace NativeSensor

/-- One tag per NDK release/free call that `cleanup` can make. -/
inductive Res where
  | session
  | device
  | request
  | target
  | sessionOutput
  | container
  | reader
deriving DecidableEq, Repr

/-- Mirror of the mutable data members of `CameraEncoderBridge`
(camera_encoder_bridge.h lines 67-82).  A `Bool` handle field is
`true` when the pointer member is non-null; the registered frame
callback is identified by a `Nat` tag. -/
structure BridgeState where
  capturing : Bool
  currentCameraId : String
  frameCallback : Option Nat
  cameraDevice : Bool
  captureSession : Bool
  outputContainer : Bool
  sessionOutput : Bool
  outputTarget : Bool
  captureRequest : Bool
  imageReader : Bool
  imageReaderWindow : Bool
deriving DecidableEq, Repr

/-- The state of a freshly constructed bridge: flag clear, empty camera
id, no callback, every handle null. -/
def initialState : BridgeState :=
  { capturing := false
    currentCameraId := ""
    frameCallback := none
    cameraDevice := false
    captureSession := false
    outputContainer := false
    sessionOutput := false
    outputTarget := false
    captureRequest := false
    imageReader := false
    imageReaderWindow := false }

/-- Model of `CameraEncoderBridge::cleanup` (camera_encoder_bridge.cpp 195-241).
The source clears the flag, then for each non-null handle calls the
release function and nulls the handle (the reader window is only
nulled, never released: it is owned by the reader), and finally clears
the camera id and the callback.  Since every field is cleared, the
resulting state is `initialState`; the second component records, in
source order, exactly the release calls that were executed (each one
guarded by a non-null check on the handle). -/
def cleanup (s : BridgeState) : BridgeState × List Res :=
  (initialState,
    (if s.captureSession then [Res.session] else []) ++
    (if s.cameraDevice then [Res.device] else []) ++
    (if s.captureRequest then [Res.request] else []) ++
    (if s.outputTarget then [Res.target] else []) ++
    (if s.sessionOutput then [Res.sessionOutput] else []) ++
    (if s.outputContainer then [Res.container] else []) ++
    (if s.imageReader then [Res.reader] else []))

/-- Model of `CameraEncoderBridge::stopCapture` (camera_encoder_bridge.cpp
186-193): early return when not capturing, otherwise `cleanup`. -/
def stopCapture (s : BridgeState) : BridgeState × List Res :=
  if s.capturing then cleanup s else (s, [])

/-- Model of the destructor `~CameraEncoderBridge` (camera_encoder_bridge.cpp
25-28): the destructor just calls `stopCapture`. -/
def destructor (s : BridgeState) : BridgeState × List Res :=
  stopCapture s

/-- Model of `CameraEncoderBridge::onDeviceDisconnected` (camera_encoder_bridge.cpp
338-342): clears only the capturing flag. -/
def onDeviceDisconnected (s : BridgeState) : BridgeState :=
  { s with capturing := false }

/-- Model of `CameraEncoderBridge::onDeviceError` (camera_encoder_bridge.cpp
344-348): clears only the capturing flag. -/
def onDeviceError (s : BridgeState) : BridgeState :=
  { s with capturing := false }

/-- The construction phase of `startCapture` after the restart/switch
check and the (possible) teardown of the old session
(camera_encoder_bridge.cpp 44-183), starting from state `s0`.  The
fallible calls, in source order, are numbered:
 1 `AImageReader_new`                    (acquires the reader)
 2 `AImageReader_setImageListener`
 3 `AImageReader_getWindow`              (acquires the reader window)
 4 `ACameraManager_openCamera`           (acquires the device)
 5 `ACameraOutputTarget_create`          (acquires the output target)
 6 `ACameraDevice_createCaptureRequest`  (acquires the request)
 7 `ACaptureRequest_addTarget`
 8 `ACaptureSessionOutputContainer_create` (acquires the container)
 9 `ACaptureSessionOutput_create`        (acquires the session output)
10 `ACaptureSessionOutputContainer_add`
11 `ACameraDevice_createCaptureSession`  (acquires the session)
12 `ACameraCaptureSession_setRepeatingRequest`
Step `i` succeeds iff `stepOk i`.  `stepApply i` is the assignment a
successful step `i` makes to a handle member (steps 2, 7, 10 and 12
acquire no handle). -/
def stepApply : Nat → BridgeState → BridgeState
  | 1, s => { s with imageReader := true }
  | 3, s => { s with imageReaderWindow := true }
  | 4, s => { s with cameraDevice := true }
  | 5, s => { s with outputTarget := true }
  | 6, s => { s with captureRequest := true }
  | 8, s => { s with outputContainer := true }
  | 9, s => { s with sessionOutput := true }
  | 11, s => { s with captureSession := true }
  | _, s => s

/-- The ordered list of the twelve fallible calls of `startCapture`. -/
def buildSteps : List Nat := [1, 2, 3, 4, 5, 6, 7, 8, 9, 10, 11, 12]

/-- Execution of the numbered construction steps in order, exactly as
the straight-line code of `startCapture` does: on the first failing
step, call `cleanup` on the state accumulated so far (the failing
step's own handle has not been acquired) and return `false` with the
releases `cleanup` performed; if every step succeeds, set the
capturing flag and return `true`. -/
def runSteps (stepOk : Nat → Bool) : List Nat → BridgeState →
    Bool × BridgeState × List Res
  | [], s => (true, { s with capturing := true }, [])
  | i :: rest, s =>
    if stepOk i = false then (false, (cleanup s).1, (cleanup s).2)
    else runSteps stepOk rest (stepApply i s)

/-- The construction phase of `startCapture` after the restart/switch
check (camera_encoder_bridge.cpp 44-183): first the
`manager_.isValid()` check (which returns `false` with no cleanup and
no stored state), then the assignments of `frameCallback_` and
`currentCameraId_` (lines 51-52), then the twelve fallible calls in
order. -/
def startBuild (stepOk : Nat → Bool) (managerValid : Bool)
    (cameraId : String) (cb : Nat) (s0 : BridgeState) :
    Bool × BridgeState × List Res :=
  if managerValid = false then (false, s0, [])
  else runSteps stepOk buildSteps
    { s0 with frameCallback := some cb, currentCameraId := cameraId }

/-- Model of `CameraEncoderBridge::startCapture` (camera_encoder_bridge.cpp
30-184).  If already capturing the same camera id it is a no-op
success (lines 35-39); if capturing a different id it first runs
`cleanup` (line 41) and then proceeds with the construction phase
`startBuild`.  The release list concatenates the switch-teardown
releases with the releases of the construction phase. -/
def startCapture (stepOk : Nat → Bool) (managerValid : Bool)
    (cameraId : String) (cb : Nat) (s : BridgeState) :
    Bool × BridgeState × List Res :=
  if s.capturing && (s.currentCameraId == cameraId) then
    (true, s, [])
  else
    let p0 := if s.capturing then cleanup s else (s, [])
    let r := startBuild stepOk managerValid cameraId cb p0.1
    (r.1, r.2.1, p0.2 ++ r.2.2)

/-- The state after a fully successful `startCapture cameraId cb`:
flag set, id and callback stored, every handle non-null. -/
def fullState (cameraId : String) (cb : Nat) : BridgeState :=
  { capturing := true
    currentCameraId := cameraId
    frameCallback := some cb
    cameraDevice := true
    captureSession := true
    outputContainer := true
    sessionOutput := true
    outputTarget := true
    captureRequest := true
    imageReader := true
    imageReaderWindow := true }

/-- All eight pipeline handles are non-null. -/
def handlesAll (s : BridgeState) : Bool :=
  s.cameraDevice && s.captureSession && s.captureRequest &&
  s.outputTarget && s.sessionOutput && s.outputContainer &&
  s.imageReader && s.imageReaderWindow

/-- All eight pipeline handles are null. -/
def handlesNone (s : BridgeState) : Bool :=
  !s.cameraDevice && !s.captureSession && !s.captureRequest &&
  !s.outputTarget && !s.sessionOutput && !s.outputContainer &&
  !s.imageReader && !s.imageReaderWindow

/-- The all-or-nothing pipeline invariant claimed by the spec. -/
def pipelineInvariant (s : BridgeState) : Bool :=
  (s.capturing && handlesAll s) || (!s.capturing && handlesNone s)

/-- The operations that can mutate a bridge instance's state. -/
inductive Op where
  | start (stepOk : Nat → Bool) (managerValid : Bool)
      (cameraId : String) (cb : Nat)
  | stop
  | doCleanup
  | disconnect
  | deviceError

/-- Whether an operation is an asynchronous device notification. -/
def Op.isAsync : Op → Bool
  | .disconnect => true
  | .deviceError => true
  | _ => false

/-- The state transition of one operation. -/
def applyOp (s : BridgeState) : Op → BridgeState
  | .start stepOk mv cameraId cb => (startCapture stepOk mv cameraId cb s).2.1
  | .stop => (stopCapture s).1
  | .doCleanup => (cleanup s).1
  | .disconnect => onDeviceDisconnected s
  | .deviceError => onDeviceError s

/-- The state reached from a fresh bridge by a sequence of operations. -/
def run (ops : List Op) : BridgeState :=
  ops.foldl applyOp initialState

/-- The releases `cleanup` performs when `startCapture` fails at the
first failing step `k` (starting from a fresh bridge): exactly the
resources acquired by steps `1..k-1`, in the release order of
`cleanup`. -/
def releasesAtFailure (k : Nat) : List Res :=
  (if 11 < k then [Res.session] else []) ++
  (if 4 < k then [Res.device] else []) ++
  (if 6 < k then [Res.request] else []) ++
  (if 5 < k then [Res.target] else []) ++
  (if 9 < k then [Res.sessionOutput] else []) ++
  (if 8 < k then [Res.container] else []) ++
  (if 1 < k then [Res.reader] else [])

/-! ## Frame plane normalizer (`onImageAvailable`, camera_encoder_bridge.cpp 243-336) -/

/-- One plane of an acquired `AImage`: the base pointer (`none` models a
null pointer), the bytes behind it, and the row/pixel strides reported
by `AImage_getPlaneRowStride` / `AImage_getPlanePixelStride`. -/
structure PlaneData where
  data : Option (List Nat)
  rowStride : Nat
  pixelStride : Nat
deriving DecidableEq, Repr

/-- An acquired `AImage` with the accessors the handler uses. -/
structure RawImage where
  width : Nat
  height : Nat
  timestampNs : Int
  yPlane : PlaneData
  uPlane : PlaneData
  vPlane : PlaneData
deriving DecidableEq, Repr

/-- Size `width * height * 3 / 2` with C++ integer division
(camera_encoder_bridge.cpp line 286). -/
def i420Size (width height : Nat) : Nat := width * height * 3 / 2

/-- Packed copy of one plane with stride padding stripped
(camera_encoder_bridge.cpp 293-301 for luma, 309-321 for planar
chroma): when the row stride equals the plane width one bulk `memcpy`
of `width*height` consecutive source bytes; otherwise a `memcpy` of
`width` bytes per row from source offset `row*rowStride`.  Destination
byte `row*width + col` is written as flat index `i = row*width + col`
with `row = i / width`, `col = i % width`. -/
def packPlane (data : List Nat) (rowStride width height : Nat) : List Nat :=
  if rowStride = width then
    (List.range (width * height)).map fun i => data.getD i 0
  else
    (List.range (width * height)).map fun i =>
      data.getD (i / width * rowStride + i % width) 0

/-- De-interleaving copy of one chroma plane (camera_encoder_bridge.cpp
323-330): destination byte `row*width + col` is the source byte at
`row*rowStride + col*pixelStride`. -/
def deinterleavePlane (data : List Nat) (rowStride pixelStride width height : Nat) :
    List Nat :=
  (List.range (width * height)).map fun i =>
    data.getD (i / width * rowStride + i % width * pixelStride) 0

/-- The packed bytes of one chroma plane (camera_encoder_bridge.cpp
309-330): planar copy when the pixel stride is 1, explicit
de-interleave otherwise.  The strides passed in are the ones queried
from plane 1 (the U plane) — the source never queries the V plane's
strides. -/
def chromaPart (data : List Nat) (uvRowStride uvPixelStride uvWidth uvHeight : Nat) :
    List Nat :=
  if uvPixelStride = 1 then packPlane data uvRowStride uvWidth uvHeight
  else deinterleavePlane data uvRowStride uvPixelStride uvWidth uvHeight

/-- The full normalized I420 buffer (camera_encoder_bridge.cpp 285-330):
a zero-initialized vector of `i420Size width height` bytes whose first
`width*height` bytes receive the packed luma plane, followed by the
packed U plane and then the packed V plane, each `(width/2)*(height/2)`
bytes; any remaining bytes keep the vector's zero initialization.
`uvRowStride`/`uvPixelStride` are the strides of plane 1 (U), used for
both chroma planes, exactly as in the source (lines 282-283). -/
def normalizeImage (width height : Nat) (yData uData vData : List Nat)
    (yRowStride uvRowStride uvPixelStride : Nat) : List Nat :=
  let body :=
    packPlane yData yRowStride width height ++
    chromaPart uData uvRowStride uvPixelStride (width / 2) (height / 2) ++
    chromaPart vData uvRowStride uvPixelStride (width / 2) (height / 2)
  body ++ List.replicate (i420Size width height - body.length) 0

/-- The externally observable effects of one run of the image-available
handler: whether the acquired image was released (`AImage_delete`),
whether the I420 buffer was allocated, and the argument tuple
`(buffer, size, width, height, timestampNs)` of the consumer-callback
invocation, if it happened. -/
structure HandlerResult where
  imageReleased : Bool
  bufferAllocated : Bool
  callbackCall : Option (List Nat × Nat × Nat × Nat × Int)
deriving DecidableEq, Repr

/-- Model of `CameraEncoderBridge::onImageAvailable` (camera_encoder_bridge.cpp
243-336).  `acquired` is the result of `AImageReader_acquireLatestImage`
(`none` on failure or a null image); `hasFrameCallback` is whether
`frameCallback_` is non-null.  Paths, as in the source: no image →
return with no action; no callback → delete the image and return; any
plane pointer null → skip conversion and callback, still delete the
image; otherwise convert, invoke the callback, delete the image. -/
def onImageAvailable (acquired : Option RawImage) (hasFrameCallback : Bool) :
    HandlerResult :=
  match acquired with
  | none => { imageReleased := false, bufferAllocated := false, callbackCall := none }
  | some img =>
    if hasFrameCallback = false then
      { imageReleased := true, bufferAllocated := false, callbackCall := none }
    else
      match img.yPlane.data, img.uPlane.data, img.vPlane.data with
      | some yData, some uData, some vData =>
        { imageReleased := true
          bufferAllocated := true
          callbackCall := some
            (normalizeImage img.width img.height yData uData vData
               img.yPlane.rowStride img.uPlane.rowStride img.uPlane.pixelStride,
             i420Size img.width img.height, img.width, img.height, img.timestampNs) }
      | _, _, _ =>
        { imageReleased := true, bufferAllocated := false, callbackCall := none }

/-! ## Helper lemmas -/

/-- Reading a mapped range at an in-bounds index gives the mapped value. -/
theorem getD_map_range (f : Nat → Nat) (n i : Nat) (h : i < n) :
    ((List.range n).map f).getD i 0 = f i := by
  have hlen : i < ((List.range n).map f).length := by simpa using h
  rw [List.getD_eq_getElem _ _ hlen]
  simp

/-- Flat index bound for a row/column pair. -/
theorem rowcol_lt (w h row col : Nat) (hr : row < h) (hc : col < w) :
    row * w + col < w * h := by
  calc row * w + col < row * w + w := by omega
    _ = (row + 1) * w := by ring
    _ ≤ h * w := Nat.mul_le_mul_right w hr
    _ = w * h := Nat.mul_comm h w

/-- Row recovery from a flat index. -/
theorem rowcol_div (w row col : Nat) (hc : col < w) : (row * w + col) / w = row := by
  have hw : 0 < w := by omega
  have h1 : row * w + col = col + w * row := by ring
  rw [h1, Nat.add_mul_div_left _ _ hw, Nat.div_eq_of_lt hc, Nat.zero_add]

/-- Column recovery from a flat index. -/
theorem rowcol_mod (w row col : Nat) (hc : col < w) : (row * w + col) % w = col := by
  have h1 : row * w + col = col + w * row := by ring
  rw [h1, Nat.add_mul_mod_self_left, Nat.mod_eq_of_lt hc]

/-- Length of a packed plane copy. -/
theorem packPlane_length (data : List Nat) (rs w h : Nat) :
    (packPlane data rs w h).length = w * h := by
  unfold packPlane
  split <;> simp

/-- Length of a de-interleaved plane copy. -/
theorem deinterleavePlane_length (data : List Nat) (rs ps w h : Nat) :
    (deinterleavePlane data rs ps w h).length = w * h := by
  unfold deinterleavePlane
  simp

/-- Length of a packed chroma plane. -/
theorem chromaPart_length (data : List Nat) (rs ps w h : Nat) :
    (chromaPart data rs ps w h).length = w * h := by
  unfold chromaPart
  split
  · exact packPlane_length data rs w h
  · exact deinterleavePlane_length data rs ps w h

/-- Destination byte `row*w + col` of a packed plane copy comes from
source offset `row*rowStride + col` (both branches of the copy). -/
theorem packPlane_getD (data : List Nat) (rs w h row col : Nat)
    (hr : row < h) (hc : col < w) :
    (packPlane data rs w h).getD (row * w + col) 0 = data.getD (row * rs + col) 0 := by
  have hlt := rowcol_lt w h row col hr hc
  unfold packPlane
  split
  · next heq => rw [getD_map_range _ _ _ hlt, heq]
  · rw [getD_map_range _ _ _ hlt, rowcol_div w row col hc, rowcol_mod w row col hc]

/-- Destination byte `row*w + col` of a de-interleaved plane copy comes
from source offset `row*rowStride + col*pixelStride`. -/
theorem deinterleavePlane_getD (data : List Nat) (rs ps w h row col : Nat)
    (hr : row < h) (hc : col < w) :
    (deinterleavePlane data rs ps w h).getD (row * w + col) 0 =
      data.getD (row * rs + col * ps) 0 := by
  have hlt := rowcol_lt w h row col hr hc
  unfold deinterleavePlane
  rw [getD_map_range _ _ _ hlt, rowcol_div w row col hc, rowcol_mod w row col hc]

/-- Destination byte `row*w + col` of a packed chroma plane, by cases on
the pixel stride. -/
theorem chromaPart_getD (data : List Nat) (rs ps w h row col : Nat)
    (hr : row < h) (hc : col < w) :
    (chromaPart data rs ps w h).getD (row * w + col) 0 =
      if ps = 1 then data.getD (row * rs + col) 0
      else data.getD (row * rs + col * ps) 0 := by
  by_cases hps : ps = 1
  · rw [if_pos hps]
    unfold chromaPart
    rw [if_pos hps]
    exact packPlane_getD data rs w h row col hr hc
  · rw [if_neg hps]
    unfold chromaPart
    rw [if_neg hps]
    exact deinterleavePlane_getD data rs ps w h row col hr hc

/-- Luma byte of the normalized buffer. -/
theorem normalizeImage_getD_luma (w h : Nat) (yD uD vD : List Nat)
    (yRS uvRS uvPS : Nat) (row col : Nat) (hr : row < h) (hc : col < w) :
    (normalizeImage w h yD uD vD yRS uvRS uvPS).getD (row * w + col) 0 =
      yD.getD (row * yRS + col) 0 := by
  have hlt : row * w + col < (packPlane yD yRS w h).length := by
    rw [packPlane_length]
    exact rowcol_lt w h row col hr hc
  simp only [normalizeImage]
  rw [List.append_assoc, List.append_assoc, List.getD_append _ _ _ _ hlt]
  exact packPlane_getD yD yRS w h row col hr hc

/-- Byte of the U region of the normalized buffer. -/
theorem normalizeImage_getD_u (w h : Nat) (yD uD vD : List Nat)
    (yRS uvRS uvPS : Nat) (row col : Nat) (hr : row < h / 2) (hc : col < w / 2) :
    (normalizeImage w h yD uD vD yRS uvRS uvPS).getD
        (w * h + (row * (w / 2) + col)) 0 =
      (chromaPart uD uvRS uvPS (w / 2) (h / 2)).getD (row * (w / 2) + col) 0 := by
  have hA : (packPlane yD yRS w h).length = w * h := packPlane_length _ _ _ _
  have hB : (chromaPart uD uvRS uvPS (w / 2) (h / 2)).length = w / 2 * (h / 2) :=
    chromaPart_length _ _ _ _ _
  have ht : row * (w / 2) + col < w / 2 * (h / 2) :=
    rowcol_lt (w / 2) (h / 2) row col hr hc
  simp only [normalizeImage]
  rw [List.append_assoc, List.append_assoc,
    List.getD_append_right _ _ _ _ (by rw [hA]; omega), hA,
    Nat.add_sub_cancel_left, List.getD_append _ _ _ _ (by rw [hB]; omega)]

/-- Byte of the V region of the normalized buffer. -/
theorem normalizeImage_getD_v (w h : Nat) (yD uD vD : List Nat)
    (yRS uvRS uvPS : Nat) (row col : Nat) (hr : row < h / 2) (hc : col < w / 2) :
    (normalizeImage w h yD uD vD yRS uvRS uvPS).getD
        (w * h + (w / 2 * (h / 2) + (row * (w / 2) + col))) 0 =
      (chromaPart vD uvRS uvPS (w / 2) (h / 2)).getD (row * (w / 2) + col) 0 := by
  have hA : (packPlane yD yRS w h).length = w * h := packPlane_length _ _ _ _
  have hB : (chromaPart uD uvRS uvPS (w / 2) (h / 2)).length = w / 2 * (h / 2) :=
    chromaPart_length _ _ _ _ _
  have hC : (chromaPart vD uvRS uvPS (w / 2) (h / 2)).length = w / 2 * (h / 2) :=
    chromaPart_length _ _ _ _ _
  have ht : row * (w / 2) + col < w / 2 * (h / 2) :=
    rowcol_lt (w / 2) (h / 2) row col hr hc
  simp only [normalizeImage]
  rw [List.append_assoc, List.append_assoc,
    List.getD_append_right _ _ _ _ (by rw [hA]; omega), hA,
    Nat.add_sub_cancel_left,
    List.getD_append_right _ _ _ _ (by rw [hB]; omega), hB,
    Nat.add_sub_cancel_left, List.getD_append _ _ _ _ (by rw [hC]; omega)]

/-- Arithmetic identity behind the even-dimension buffer size. -/
theorem even_i420_arith (a b : Nat) :
    2 * a * (2 * b) + a * b + a * b = 2 * a * (2 * b) * 3 / 2 := by
  have e1 : 2 * a * (2 * b) = 4 * (a * b) := by ring
  have e2 : 2 * a * (2 * b) * 3 = 12 * (a * b) := by ring
  rw [e2, e1]
  generalize a * b = m
  omega

/-- Length of the three packed planes for even dimensions. -/
theorem bodyLength_even (w h : Nat) (yD uD vD : List Nat) (yRS uvRS uvPS : Nat)
    (hw : w % 2 = 0) (hh : h % 2 = 0) :
    (packPlane yD yRS w h ++ chromaPart uD uvRS uvPS (w / 2) (h / 2) ++
      chromaPart vD uvRS uvPS (w / 2) (h / 2)).length = w * h * 3 / 2 := by
  obtain ⟨a, rfl⟩ : ∃ a, w = 2 * a := ⟨w / 2, by omega⟩
  obtain ⟨b, rfl⟩ : ∃ b, h = 2 * b := ⟨h / 2, by omega⟩
  have h2a : 2 * a / 2 = a := by omega
  have h2b : 2 * b / 2 = b := by omega
  rw [List.length_append, List.length_append, packPlane_length,
    chromaPart_length, chromaPart_length, h2a, h2b]
  exact even_i420_arith a b

/-- For even dimensions the normalized buffer is exactly the three
packed planes, with no trailing zero padding. -/
theorem normalizeImage_even (w h : Nat) (yD uD vD : List Nat)
    (yRS uvRS uvPS : Nat) (hw : w % 2 = 0) (hh : h % 2 = 0) :
    normalizeImage w h yD uD vD yRS uvRS uvPS =
      packPlane yD yRS w h ++ chromaPart uD uvRS uvPS (w / 2) (h / 2) ++
        chromaPart vD uvRS uvPS (w / 2) (h / 2) := by
  simp only [normalizeImage]
  rw [bodyLength_even w h yD uD vD yRS uvRS uvPS hw hh]
  simp [i420Size]

/-- Running `startCapture` on a non-capturing state is exactly the
construction phase. -/
theorem startCapture_of_not_capturing (stepOk : Nat → Bool) (mv : Bool)
    (cameraId : String) (cb : Nat) (s : BridgeState) (h : s.capturing = false) :
    startCapture stepOk mv cameraId cb s = startBuild stepOk mv cameraId cb s := by
  unfold startCapture
  rw [h]
  simp

/-- Running a step list ends either in the clean state (some step
failed) or in the state with all the steps applied and the flag set. -/
theorem runSteps_cases (stepOk : Nat → Bool) (steps : List Nat) (s : BridgeState) :
    (runSteps stepOk steps s).2.1 = initialState ∨
    (runSteps stepOk steps s).2.1 =
      { steps.foldl (fun t i => stepApply i t) s with capturing := true } := by
  induction steps generalizing s with
  | nil => right; rfl
  | cons i rest ih =>
    simp only [runSteps, List.foldl_cons]
    split
    · left; rfl
    · exact ih (stepApply i s)

/-- The construction phase ends in the start state, the clean state, or
the fully built state. -/
theorem startBuild_state_cases (stepOk : Nat → Bool) (mv : Bool)
    (cameraId : String) (cb : Nat) (s0 : BridgeState) :
    (startBuild stepOk mv cameraId cb s0).2.1 = s0 ∨
    (startBuild stepOk mv cameraId cb s0).2.1 = initialState ∨
    (startBuild stepOk mv cameraId cb s0).2.1 = fullState cameraId cb := by
  unfold startBuild
  by_cases hmv : mv = false
  · rw [if_pos hmv]
    left
    rfl
  · rw [if_neg hmv]
    rcases runSteps_cases stepOk buildSteps
        { s0 with frameCallback := some cb, currentCameraId := cameraId } with h | h
    · right; left; exact h
    · right; right
      rw [h]
      rfl

/-- Every `startCapture` ends in the start state, the clean state, or
the fully built state. -/
theorem startCapture_state_cases (stepOk : Nat → Bool) (mv : Bool)
    (cameraId : String) (cb : Nat) (s : BridgeState) :
    (startCapture stepOk mv cameraId cb s).2.1 = s ∨
    (startCapture stepOk mv cameraId cb s).2.1 = initialState ∨
    (startCapture stepOk mv cameraId cb s).2.1 = fullState cameraId cb := by
  unfold startCapture
  split
  · left; rfl
  · by_cases hcap : s.capturing
    · simp only [hcap, if_true]
      rcases startBuild_state_cases stepOk mv cameraId cb initialState with h | h | h
      · right; left; exact h
      · right; left; exact h
      · right; right; exact h
    · simp only [hcap, if_false]
      rcases startBuild_state_cases stepOk mv cameraId cb s with h | h | h
      · left; exact h
      · right; left; exact h
      · right; right; exact h

/-- The clean state satisfies the pipeline invariant. -/
theorem pipelineInvariant_initial : pipelineInvariant initialState = true := rfl

/-- The fully built state satisfies the pipeline invariant. -/
theorem pipelineInvariant_full (cameraId : String) (cb : Nat) :
    pipelineInvariant (fullState cameraId cb) = true := rfl

/-- Non-asynchronous operations preserve the pipeline invariant. -/
theorem applyOp_preserves (s : BridgeState) (op : Op)
    (hs : pipelineInvariant s = true) (hop : op.isAsync = false) :
    pipelineInvariant (applyOp s op) = true := by
  cases op with
  | start stepOk mv cameraId cb =>
    show pipelineInvariant (startCapture stepOk mv cameraId cb s).2.1 = true
    rcases startCapture_state_cases stepOk mv cameraId cb s with h | h | h <;> rw [h]
    · exact hs
    · exact pipelineInvariant_initial
    · exact pipelineInvariant_full cameraId cb
  | stop =>
    show pipelineInvariant (stopCapture s).1 = true
    unfold stopCapture
    split
    · exact pipelineInvariant_initial
    · exact hs
  | doCleanup => exact pipelineInvariant_initial
  | disconnect => simp [Op.isAsync] at hop
  | deviceError => simp [Op.isAsync] at hop

/-- Folding non-asynchronous operations preserves the pipeline invariant. -/
theorem foldl_preserves_invariant (ops : List Op) (s : BridgeState)
    (hs : pipelineInvariant s = true) (h : ∀ op ∈ ops, op.isAsync = false) :
    pipelineInvariant (ops.foldl applyOp s) = true := by
  induction ops generalizing s with
  | nil => simpa using hs
  | cons o rest ih =>
    simp only [List.foldl_cons]
    exact ih (applyOp s o)
      (applyOp_preserves s o hs (h o (List.mem_cons_self o rest)))
      (fun op hm => h op (List.mem_cons_of_mem o hm))

/-! ## Claims -/

/-- C2 counterexample: the claimed all-or-nothing pipeline invariant
fails on a reachable state — after a fully successful `startCapture`,
`onDeviceDisconnected` clears only the capturing flag, leaving a state
with the flag false and every pipeline handle still populated. -/
theorem pipeline_invariant_counterexample :
    pipelineInvariant (run [Op.start (fun _ => true) true "0" 0, Op.disconnect]) = false ∧
    (run [Op.start (fun _ => true) true "0" 0, Op.disconnect]).capturing = false ∧
    handlesAll (run [Op.start (fun _ => true) true "0" 0, Op.disconnect]) = true := by
  decide

/-- C2 (amended): after any sequence of `startCapture`, `stopCapture`
and `cleanup` operations that contains no device disconnect/error
notification, either all pipeline handles are populated and the
capturing flag is true, or all are null and the flag is false. -/
theorem pipeline_invariant_sync_ops (ops : List Op)
    (h : ∀ op ∈ ops, op.isAsync = false) :
    pipelineInvariant (run ops) = true :=
  foldl_preserves_invariant ops initialState rfl h

/-- C2 witness: the amended invariant at a concrete operation sequence. -/
theorem pipeline_invariant_sync_ops_witness :
    pipelineInvariant (run [Op.start (fun _ => true) true "0" 0, Op.stop]) = true :=
  pipeline_invariant_sync_ops [Op.start (fun _ => true) true "0" 0, Op.stop]
    (by
      intro op hop
      rcases List.mem_cons.mp hop with rfl | hop2
      · rfl
      · rcases List.mem_cons.mp hop2 with rfl | hop3
        · rfl
        · simp at hop3)

/-- C6: the raw image is released exactly once on every exit path of
the image-available handler: with no frame callback registered it is
released with no allocation and no callback invocation; with any plane
pointer null the frame is skipped (no callback, no allocation) and the
image is still released; and when acquisition yields no image the
handler returns without any action. -/
theorem image_release_discipline (img : RawImage) (hasCb : Bool) :
    onImageAvailable none hasCb =
      { imageReleased := false, bufferAllocated := false, callbackCall := none } ∧
    (onImageAvailable (some img) hasCb).imageReleased = true ∧
    (hasCb = false →
      onImageAvailable (some img) hasCb =
        { imageReleased := true, bufferAllocated := false, callbackCall := none }) ∧
    ((img.yPlane.data = none ∨ img.uPlane.data = none ∨ img.vPlane.data = none) →
      (onImageAvailable (some img) hasCb).bufferAllocated = false ∧
      (onImageAvailable (some img) hasCb).callbackCall = none) := by
  refine ⟨rfl, ?_, fun h => ?_, fun h => ?_⟩
  · cases hasCb
    · rfl
    · unfold onImageAvailable
      cases hy : img.yPlane.data <;> cases hu : img.uPlane.data <;>
        cases hv : img.vPlane.data <;> simp [hy, hu, hv]
  · unfold onImageAvailable
    rw [h]
    simp
  · cases hasCb
    · exact ⟨rfl, rfl⟩
    · cases hy : img.yPlane.data <;> cases hu : img.uPlane.data <;>
        cases hv : img.vPlane.data <;> simp_all [onImageAvailable]

/-- An image whose luma plane pointer is null, used as the C6 witness. -/
def nullPlaneImage : RawImage :=
  { width := 2, height := 2, timestampNs := 0
    yPlane := { data := none, rowStride := 2, pixelStride := 1 }
    uPlane := { data := some [1], rowStride := 1, pixelStride := 1 }
    vPlane := { data := some [2], rowStride := 1, pixelStride := 1 } }

/-- C6 witness: a delivered image with a null luma plane pointer is
released, with no callback invocation. -/
theorem image_release_discipline_witness :
    (onImageAvailable (some nullPlaneImage) true).imageReleased = true ∧
    (onImageAvailable (some nullPlaneImage) true).callbackCall = none :=
  ⟨(image_release_discipline nullPlaneImage true).2.1,
   ((image_release_discipline nullPlaneImage true).2.2.2 (Or.inl rfl)).2⟩

/-- C7: `stopCapture` is idempotent — when not capturing it changes no
state and releases nothing; a second `stopCapture` right after a first
one changes nothing and releases nothing; and a repeated `cleanup`
releases nothing the second time, every handle having been nulled
immediately after its release by the first. -/
theorem stopCapture_idempotent (s : BridgeState) :
    (s.capturing = false → stopCapture s = (s, [])) ∧
    stopCapture (stopCapture s).1 = ((stopCapture s).1, []) ∧
    (cleanup (cleanup s).1).2 = [] := by
  refine ⟨fun h => ?_, ?_, rfl⟩
  · unfold stopCapture
    rw [h]
    simp
  · by_cases hcap : s.capturing = true
    · have h1 : stopCapture s = cleanup s := by
        unfold stopCapture
        rw [if_pos hcap]
      rw [h1]
      rfl
    · have h1 : stopCapture s = (s, []) := by
        unfold stopCapture
        rw [if_neg hcap]
      rw [h1]
      unfold stopCapture
      rw [if_neg hcap]

/-- C7 witness: `stopCapture` on a non-capturing state and repeated
`cleanup` on a fully built state. -/
theorem stopCapture_idempotent_witness :
    initialState.capturing = false ∧
    stopCapture initialState = (initialState, []) ∧
    (cleanup (cleanup (fullState "0" 0)).1).2 = [] :=
  ⟨rfl, (stopCapture_idempotent initialState).1 rfl,
    (stopCapture_idempotent (fullState "0" 0)).2.2⟩

/-- C8: starting while already capturing the same camera id is a no-op
success: result `true`, state completely unchanged (handles, stored
callback and camera id included), nothing released. -/
theorem startCapture_same_camera_noop (stepOk : Nat → Bool) (mv : Bool)
    (cameraId : String) (cb : Nat) (s : BridgeState)
    (h1 : s.capturing = true) (h2 : s.currentCameraId = cameraId) :
    startCapture stepOk mv cameraId cb s = (true, s, []) := by
  unfold startCapture
  rw [h1, h2]
  simp

/-- C8 witness: restarting the active camera on a fully built state. -/
theorem startCapture_same_camera_noop_witness :
    startCapture (fun _ => true) true "0" 3 (fullState "0" 3) =
      (true, fullState "0" 3, []) :=
  startCapture_same_camera_noop (fun _ => true) true "0" 3 (fullState "0" 3) rfl rfl

/-- C9: starting while capturing a different camera id first tears the
old pipeline fully down — `cleanup` leaves the all-null state and,
when every handle is present, releases every one of the seven
resources — and only then runs the construction, which proceeds
exactly as it would from a fresh bridge. -/
theorem startCapture_switch_teardown (stepOk : Nat → Bool) (mv : Bool)
    (cameraId : String) (cb : Nat) (s : BridgeState)
    (h1 : s.capturing = true) (h2 : s.currentCameraId ≠ cameraId) :
    startCapture stepOk mv cameraId cb s =
      ((startCapture stepOk mv cameraId cb initialState).1,
       (startCapture stepOk mv cameraId cb initialState).2.1,
       (cleanup s).2 ++ (startCapture stepOk mv cameraId cb initialState).2.2) ∧
    (cleanup s).1 = initialState ∧
    (handlesAll s = true →
      (cleanup s).2 = [Res.session, Res.device, Res.request, Res.target,
        Res.sessionOutput, Res.container, Res.reader]) := by
  refine ⟨?_, rfl, fun hh => ?_⟩
  · have hb : (s.currentCameraId == cameraId) = false := beq_eq_false_iff_ne.mpr h2
    rw [startCapture_of_not_capturing stepOk mv cameraId cb initialState rfl]
    unfold startCapture
    rw [h1, hb]
    simp
    exact ⟨rfl, rfl, rfl⟩
  · simp only [handlesAll, Bool.and_eq_true] at hh
    obtain ⟨⟨⟨⟨⟨⟨⟨hd, hse⟩, hrq⟩, htg⟩, hso⟩, hoc⟩, hir⟩, hwd⟩ := hh
    simp [cleanup, hd, hse, hrq, htg, hso, hoc, hir]

/-- C9 witness: switching away from a fully built session tears down
and releases all seven resources. -/
theorem startCapture_switch_teardown_witness :
    (cleanup (fullState "0" 1)).1 = initialState ∧
    (cleanup (fullState "0" 1)).2 = [Res.session, Res.device, Res.request,
      Res.target, Res.sessionOutput, Res.container, Res.reader] :=
  ⟨(startCapture_switch_teardown (fun _ => true) true "1" 2 (fullState "0" 1) rfl
      (by decide)).2.1,
   (startCapture_switch_teardown (fun _ => true) true "1" 2 (fullState "0" 1) rfl
      (by decide)).2.2 rfl⟩

/-- C10: in the state reached by a device disconnect or error
notification on a fully built session, the capturing flag is false but
every pipeline handle is still populated, and a subsequent
`stopCapture` — including the one invoked by the destructor — returns
immediately, releasing and nulling nothing. -/
theorem stop_after_async_leaves_handles (cameraId : String) (cb : Nat)
    (s : BridgeState)
    (hs : s = onDeviceDisconnected (fullState cameraId cb) ∨
          s = onDeviceError (fullState cameraId cb)) :
    s.capturing = false ∧ handlesAll s = true ∧
    stopCapture s = (s, []) ∧ destructor s = (s, []) := by
  have hcases : s = { fullState cameraId cb with capturing := false } := by
    rcases hs with h | h <;> exact h
  subst hcases
  exact ⟨rfl, rfl, rfl, rfl⟩

/-- C10 witness: the concrete leaked state after a disconnect. -/
theorem stop_after_async_leaves_handles_witness :
    (onDeviceDisconnected (fullState "0" 0)).capturing = false ∧
    handlesAll (onDeviceDisconnected (fullState "0" 0)) = true ∧
    stopCapture (onDeviceDisconnected (fullState "0" 0)) =
      (onDeviceDisconnected (fullState "0" 0), []) :=
  ⟨(stop_after_async_leaves_handles "0" 0 _ (Or.inl rfl)).1,
   (stop_after_async_leaves_handles "0" 0 _ (Or.inl rfl)).2.1,
   (stop_after_async_leaves_handles "0" 0 _ (Or.inl rfl)).2.2.1⟩

/-- C1: injecting the first failure at any of the twelve fallible
construction steps makes `startCapture` (from a fresh bridge) return
`false` with the all-null state — every handle nulled, the stored
camera id and frame callback cleared — after releasing exactly the
resources acquired by the preceding steps. -/
theorem startCapture_rollback_complete (stepOk : Nat → Bool) (cameraId : String)
    (cb : Nat) (k : Nat) (hk1 : 1 ≤ k) (hk2 : k ≤ 12) (hfail : stepOk k = false)
    (hprev : ∀ i, 1 ≤ i → i < k → stepOk i = true) :
    startCapture stepOk true cameraId cb initialState =
      (false, initialState, releasesAtFailure k) := by
  rw [startCapture_of_not_capturing stepOk true cameraId cb initialState rfl]
  unfold startBuild
  rw [if_neg (by decide)]
  interval_cases k
  · -- failure at step 1
    simp [buildSteps, runSteps, stepApply, hfail, cleanup, initialState, releasesAtFailure]
  · -- failure at step 2
    have e1 := hprev 1 (by omega) (by omega)
    simp [buildSteps, runSteps, stepApply, e1, hfail, cleanup, initialState, releasesAtFailure]
  · -- failure at step 3
    have e1 := hprev 1 (by omega) (by omega)
    have e2 := hprev 2 (by omega) (by omega)
    simp [buildSteps, runSteps, stepApply, e1, e2, hfail, cleanup, initialState, releasesAtFailure]
  · -- failure at step 4
    have e1 := hprev 1 (by omega) (by omega)
    have e2 := hprev 2 (by omega) (by omega)
    have e3 := hprev 3 (by omega) (by omega)
    simp [buildSteps, runSteps, stepApply, e1, e2, e3, hfail, cleanup, initialState, releasesAtFailure]
  · -- failure at step 5
    have e1 := hprev 1 (by omega) (by omega)
    have e2 := hprev 2 (by omega) (by omega)
    have e3 := hprev 3 (by omega) (by omega)
    have e4 := hprev 4 (by omega) (by omega)
    simp [buildSteps, runSteps, stepApply, e1, e2, e3, e4, hfail, cleanup, initialState, releasesAtFailure]
  · -- failure at step 6
    have e1 := hprev 1 (by omega) (by omega)
    have e2 := hprev 2 (by omega) (by omega)
    have e3 := hprev 3 (by omega) (by omega)
    have e4 := hprev 4 (by omega) (by omega)
    have e5 := hprev 5 (by omega) (by omega)
    simp [buildSteps, runSteps, stepApply, e1, e2, e3, e4, e5, hfail, cleanup, initialState, releasesAtFailure]
  · -- failure at step 7
    have e1 := hprev 1 (by omega) (by omega)
    have e2 := hprev 2 (by omega) (by omega)
    have e3 := hprev 3 (by omega) (by omega)
    have e4 := hprev 4 (by omega) (by omega)
    have e5 := hprev 5 (by omega) (by omega)
    have e6 := hprev 6 (by omega) (by omega)
    simp [buildSteps, runSteps, stepApply, e1, e2, e3, e4, e5, e6, hfail, cleanup, initialState, releasesAtFailure]
  · -- failure at step 8
    have e1 := hprev 1 (by omega) (by omega)
    have e2 := hprev 2 (by omega) (by omega)
    have e3 := hprev 3 (by omega) (by omega)
    have e4 := hprev 4 (by omega) (by omega)
    have e5 := hprev 5 (by omega) (by omega)
    have e6 := hprev 6 (by omega) (by omega)
    have e7 := hprev 7 (by omega) (by omega)
    simp [buildSteps, runSteps, stepApply, e1, e2, e3, e4, e5, e6, e7, hfail, cleanup, initialState, releasesAtFailure]
  · -- failure at step 9
    have e1 := hprev 1 (by omega) (by omega)
    have e2 := hprev 2 (by omega) (by omega)
    have e3 := hprev 3 (by omega) (by omega)
    have e4 := hprev 4 (by omega) (by omega)
    have e5 := hprev 5 (by omega) (by omega)
    have e6 := hprev 6 (by omega) (by omega)
    have e7 := hprev 7 (by omega) (by omega)
    have e8 := hprev 8 (by omega) (by omega)
    simp [buildSteps, runSteps, stepApply, e1, e2, e3, e4, e5, e6, e7, e8, hfail, cleanup, initialState, releasesAtFailure]
  · -- failure at step 10
    have e1 := hprev 1 (by omega) (by omega)
    have e2 := hprev 2 (by omega) (by omega)
    have e3 := hprev 3 (by omega) (by omega)
    have e4 := hprev 4 (by omega) (by omega)
    have e5 := hprev 5 (by omega) (by omega)
    have e6 := hprev 6 (by omega) (by omega)
    have e7 := hprev 7 (by omega) (by omega)
    have e8 := hprev 8 (by omega) (by omega)
    have e9 := hprev 9 (by omega) (by omega)
    simp [buildSteps, runSteps, stepApply, e1, e2, e3, e4, e5, e6, e7, e8, e9, hfail, cleanup, initialState, releasesAtFailure]
  · -- failure at step 11
    have e1 := hprev 1 (by omega) (by omega)
    have e2 := hprev 2 (by omega) (by omega)
    have e3 := hprev 3 (by omega) (by omega)
    have e4 := hprev 4 (by omega) (by omega)
    have e5 := hprev 5 (by omega) (by omega)
    have e6 := hprev 6 (by omega) (by omega)
    have e7 := hprev 7 (by omega) (by omega)
    have e8 := hprev 8 (by omega) (by omega)
    have e9 := hprev 9 (by omega) (by omega)
    have e10 := hprev 10 (by omega) (by omega)
    simp [buildSteps, runSteps, stepApply, e1, e2, e3, e4, e5, e6, e7, e8, e9, e10, hfail, cleanup, initialState, releasesAtFailure]
  · -- failure at step 12
    have e1 := hprev 1 (by omega) (by omega)
    have e2 := hprev 2 (by omega) (by omega)
    have e3 := hprev 3 (by omega) (by omega)
    have e4 := hprev 4 (by omega) (by omega)
    have e5 := hprev 5 (by omega) (by omega)
    have e6 := hprev 6 (by omega) (by omega)
    have e7 := hprev 7 (by omega) (by omega)
    have e8 := hprev 8 (by omega) (by omega)
    have e9 := hprev 9 (by omega) (by omega)
    have e10 := hprev 10 (by omega) (by omega)
    have e11 := hprev 11 (by omega) (by omega)
    simp [buildSteps, runSteps, stepApply, e1, e2, e3, e4, e5, e6, e7, e8, e9, e10, e11, hfail, cleanup, initialState, releasesAtFailure]

/-- C1 witness: failure injected at step 5 (`ACameraOutputTarget_create`)
rolls back to the all-null state after releasing the device and the
reader acquired by steps 1-4. -/
theorem startCapture_rollback_complete_witness :
    (fun i => !(i == 5)) 5 = false ∧
    startCapture (fun i => !(i == 5)) true "0" 7 initialState =
      (false, initialState, releasesAtFailure 5) ∧
    releasesAtFailure 5 = [Res.device, Res.reader] :=
  ⟨by decide,
   startCapture_rollback_complete (fun i => !(i == 5)) "0" 7 5 (by decide) (by decide)
     (by decide) (by intro i hi1 hi2; interval_cases i <;> decide),
   by decide⟩

/-- Luma plane of the 4×4, row-stride-8 example, filled with row-index
values. -/
def lumaStrideExample : List Nat := (List.range 32).map fun i => i / 8

/-- C4: the luma plane is copied into the first `width*height` bytes of
the normalized buffer with stride padding stripped — destination byte
`row*width + col` is source byte `row*rowStride + col`, the
`rowStride = width` case being one bulk copy of `width*height`
consecutive bytes — and the 4×4, stride-8, row-index example
normalizes to exactly 16 luma bytes with `[row*4+col] = row`. -/
theorem luma_plane_copy (w h : Nat) (yD uD vD : List Nat)
    (yRS uvRS uvPS : Nat) (row col : Nat) (hr : row < h) (hc : col < w) :
    (normalizeImage w h yD uD vD yRS uvRS uvPS).getD (row * w + col) 0 =
      yD.getD (row * yRS + col) 0 ∧
    (yRS = w →
      (normalizeImage w h yD uD vD yRS uvRS uvPS).take (w * h) =
        (List.range (w * h)).map fun i => yD.getD i 0) ∧
    (normalizeImage 4 4 lumaStrideExample (List.replicate 8 10)
        (List.replicate 8 20) 8 2 1).take 16 =
      [0, 0, 0, 0, 1, 1, 1, 1, 2, 2, 2, 2, 3, 3, 3, 3] := by
  refine ⟨normalizeImage_getD_luma w h yD uD vD yRS uvRS uvPS row col hr hc,
    fun hbulk => ?_, by decide⟩
  have hA : (packPlane yD yRS w h).length = w * h := packPlane_length _ _ _ _
  simp only [normalizeImage]
  rw [List.append_assoc, List.append_assoc, List.take_left' hA]
  unfold packPlane
  rw [if_pos hbulk]

/-- C4 witness: a 2×2 luma plane with row stride 3 at row 1, column 1. -/
theorem luma_plane_copy_witness :
    (1 : Nat) < 2 ∧
    (normalizeImage 2 2 [1, 2, 3, 4, 5, 6] [7] [8] 3 1 1).getD (1 * 2 + 1) 0 =
      ([1, 2, 3, 4, 5, 6] : List Nat).getD (1 * 3 + 1) 0 :=
  ⟨by decide,
   (luma_plane_copy 2 2 [1, 2, 3, 4, 5, 6] [7] [8] 3 1 1 1 1
      (by decide) (by decide)).1⟩

/-- The 4×4 planar example image of the spec: luma stride 8 with
row-index values, planar chroma (pixel stride 1, row stride 2), U
bytes all 10, V bytes all 20. -/
def planarImage : RawImage :=
  { width := 4, height := 4, timestampNs := 123
    yPlane := { data := some lumaStrideExample, rowStride := 8, pixelStride := 1 }
    uPlane := { data := some (List.replicate 8 10), rowStride := 2, pixelStride := 1 }
    vPlane := { data := some (List.replicate 8 20), rowStride := 2, pixelStride := 1 } }

/-- C5: for an even-dimension delivered image (all plane pointers
non-null) the consumer callback receives the normalized buffer, its
byte size `width*height*3/2`, the width, the height and the image
timestamp; the buffer has exactly that length and is the packed luma
plane in bytes `[0, width*height)` followed by the packed U plane and
then the packed V plane, each `(width/2)*(height/2)` bytes, tightly
packed with no stride padding and 1-byte chroma pixel stride. -/
theorem normalized_buffer_layout (img : RawImage) (yD uD vD : List Nat)
    (hy : img.yPlane.data = some yD) (hu : img.uPlane.data = some uD)
    (hv : img.vPlane.data = some vD)
    (hw : img.width % 2 = 0) (hh : img.height % 2 = 0) :
    (onImageAvailable (some img) true).callbackCall =
      some (normalizeImage img.width img.height yD uD vD img.yPlane.rowStride
              img.uPlane.rowStride img.uPlane.pixelStride,
            img.width * img.height * 3 / 2, img.width, img.height,
            img.timestampNs) ∧
    (normalizeImage img.width img.height yD uD vD img.yPlane.rowStride
        img.uPlane.rowStride img.uPlane.pixelStride).length =
      img.width * img.height * 3 / 2 ∧
    (normalizeImage img.width img.height yD uD vD img.yPlane.rowStride
        img.uPlane.rowStride img.uPlane.pixelStride).take
        (img.width * img.height) =
      packPlane yD img.yPlane.rowStride img.width img.height ∧
    ((normalizeImage img.width img.height yD uD vD img.yPlane.rowStride
        img.uPlane.rowStride img.uPlane.pixelStride).drop
        (img.width * img.height)).take (img.width / 2 * (img.height / 2)) =
      chromaPart uD img.uPlane.rowStride img.uPlane.pixelStride
        (img.width / 2) (img.height / 2) ∧
    (normalizeImage img.width img.height yD uD vD img.yPlane.rowStride
        img.uPlane.rowStride img.uPlane.pixelStride).drop
        (img.width * img.height + img.width / 2 * (img.height / 2)) =
      chromaPart vD img.uPlane.rowStride img.uPlane.pixelStride
        (img.width / 2) (img.height / 2) := by
  have heven := normalizeImage_even img.width img.height yD uD vD
    img.yPlane.rowStride img.uPlane.rowStride img.uPlane.pixelStride hw hh
  have hA : (packPlane yD img.yPlane.rowStride img.width img.height).length =
      img.width * img.height := packPlane_length _ _ _ _
  have hB : (chromaPart uD img.uPlane.rowStride img.uPlane.pixelStride
      (img.width / 2) (img.height / 2)).length =
      img.width / 2 * (img.height / 2) := chromaPart_length _ _ _ _ _
  refine ⟨?_, ?_, ?_, ?_, ?_⟩
  · simp only [onImageAvailable]
    rw [hy, hu, hv]
    simp [i420Size]
  · rw [heven]
    exact bodyLength_even img.width img.height yD uD vD img.yPlane.rowStride
      img.uPlane.rowStride img.uPlane.pixelStride hw hh
  · rw [heven, List.append_assoc, List.take_left' hA]
  · rw [heven, List.append_assoc, List.drop_left' hA, List.take_left' hB]
  · rw [heven, List.drop_left' (by rw [List.length_append, hA, hB])]

/-- C5 witness: the spec's 4×4 planar example, timestamp 123. -/
theorem normalized_buffer_layout_witness :
    (4 : Nat) % 2 = 0 ∧
    (onImageAvailable (some planarImage) true).callbackCall =
      some (normalizeImage 4 4 lumaStrideExample (List.replicate 8 10)
              (List.replicate 8 20) 8 2 1, 4 * 4 * 3 / 2, 4, 4, 123) :=
  ⟨rfl,
   (normalized_buffer_layout planarImage lumaStrideExample (List.replicate 8 10)
      (List.replicate 8 20) rfl rfl rfl rfl rfl).1⟩

/-- An interleaved-chroma image whose V plane reports row stride 4
while the U plane reports row stride 2; the handler queries only the
U plane's strides (camera_encoder_bridge.cpp 282-283). -/
def stridesImage : RawImage :=
  { width := 2, height := 4, timestampNs := 0
    yPlane := { data := some [0, 0, 0, 0, 0, 0, 0, 0], rowStride := 2, pixelStride := 1 }
    uPlane := { data := some [10, 11, 12, 13], rowStride := 2, pixelStride := 2 }
    vPlane := { data := some [9, 8, 7, 6, 5, 4, 3, 2], rowStride := 4, pixelStride := 2 } }

/-- C3 counterexample: for `stridesImage` the packed V byte of chroma
row 1, column 0 — buffer offset `w*h + (w/2)*(h/2) + 1*(w/2) + 0 = 11`
— is 7, the byte the U plane's row stride 2 selects from the V data,
whereas the V plane's own strides select offset `1*4 + 0*2 = 4`, whose
byte is 5: the conversion does not use each plane's own row and pixel
strides. -/
theorem chroma_own_strides_counterexample :
    (onImageAvailable (some stridesImage) true).callbackCall =
      some ([0, 0, 0, 0, 0, 0, 0, 0, 10, 12, 9, 7], 12, 2, 4, 0) ∧
    ([0, 0, 0, 0, 0, 0, 0, 0, 10, 12, 9, 7] : List Nat).getD
      (2 * 4 + 2 / 2 * (4 / 2) + 1 * (2 / 2) + 0) 0 = 7 ∧
    ([9, 8, 7, 6, 5, 4, 3, 2] : List Nat).getD
      (1 * stridesImage.vPlane.rowStride + 0 * stridesImage.vPlane.pixelStride) 0 = 5 ∧
    (7 : Nat) ≠ 5 := by
  decide

/-- C3 (amended): for every delivered image with all three plane
pointers non-null, chroma dimensions are `width/2` and `height/2` by
integer truncation; if the chroma pixel stride reported by the U plane
equals 1, each chroma plane is copied planar, destination byte
`row*(width/2) + col` from source offset `row*rowStride + col`;
otherwise each channel's byte is read at `row*rowStride +
col*pixelStride` and written to packed destination `row*(width/2) +
col` — in all cases using the U plane's row and pixel strides for both
chroma channels. -/
theorem chroma_conversion_u_strides (img : RawImage) (yD uD vD : List Nat)
    (hy : img.yPlane.data = some yD) (hu : img.uPlane.data = some uD)
    (hv : img.vPlane.data = some vD) (row col : Nat)
    (hr : row < img.height / 2) (hc : col < img.width / 2) :
    (onImageAvailable (some img) true).callbackCall =
      some (normalizeImage img.width img.height yD uD vD img.yPlane.rowStride
              img.uPlane.rowStride img.uPlane.pixelStride,
            img.width * img.height * 3 / 2, img.width, img.height,
            img.timestampNs) ∧
    (chromaPart uD img.uPlane.rowStride img.uPlane.pixelStride
        (img.width / 2) (img.height / 2)).length =
      img.width / 2 * (img.height / 2) ∧
    (img.uPlane.pixelStride = 1 →
      (normalizeImage img.width img.height yD uD vD img.yPlane.rowStride
          img.uPlane.rowStride img.uPlane.pixelStride).getD
          (img.width * img.height + (row * (img.width / 2) + col)) 0 =
        uD.getD (row * img.uPlane.rowStride + col) 0 ∧
      (normalizeImage img.width img.height yD uD vD img.yPlane.rowStride
          img.uPlane.rowStride img.uPlane.pixelStride).getD
          (img.width * img.height +
            (img.width / 2 * (img.height / 2) + (row * (img.width / 2) + col))) 0 =
        vD.getD (row * img.uPlane.rowStride + col) 0) ∧
    (img.uPlane.pixelStride ≠ 1 →
      (normalizeImage img.width img.height yD uD vD img.yPlane.rowStride
          img.uPlane.rowStride img.uPlane.pixelStride).getD
          (img.width * img.height + (row * (img.width / 2) + col)) 0 =
        uD.getD (row * img.uPlane.rowStride + col * img.uPlane.pixelStride) 0 ∧
      (normalizeImage img.width img.height yD uD vD img.yPlane.rowStride
          img.uPlane.rowStride img.uPlane.pixelStride).getD
          (img.width * img.height +
            (img.width / 2 * (img.height / 2) + (row * (img.width / 2) + col))) 0 =
        vD.getD (row * img.uPlane.rowStride + col * img.uPlane.pixelStride) 0) := by
  refine ⟨?_, chromaPart_length _ _ _ _ _, fun hps => ⟨?_, ?_⟩, fun hps => ⟨?_, ?_⟩⟩
  · simp only [onImageAvailable]
    rw [hy, hu, hv]
    simp [i420Size]
  · rw [normalizeImage_getD_u img.width img.height yD uD vD img.yPlane.rowStride
      img.uPlane.rowStride img.uPlane.pixelStride row col hr hc,
      chromaPart_getD uD img.uPlane.rowStride img.uPlane.pixelStride
        (img.width / 2) (img.height / 2) row col hr hc, if_pos hps]
  · rw [normalizeImage_getD_v img.width img.height yD uD vD img.yPlane.rowStride
      img.uPlane.rowStride img.uPlane.pixelStride row col hr hc,
      chromaPart_getD vD img.uPlane.rowStride img.uPlane.pixelStride
        (img.width / 2) (img.height / 2) row col hr hc, if_pos hps]
  · rw [normalizeImage_getD_u img.width img.height yD uD vD img.yPlane.rowStride
      img.uPlane.rowStride img.uPlane.pixelStride row col hr hc,
      chromaPart_getD uD img.uPlane.rowStride img.uPlane.pixelStride
        (img.width / 2) (img.height / 2) row col hr hc, if_neg hps]
  · rw [normalizeImage_getD_v img.width img.height yD uD vD img.yPlane.rowStride
      img.uPlane.rowStride img.uPlane.pixelStride row col hr hc,
      chromaPart_getD vD img.uPlane.rowStride img.uPlane.pixelStride
        (img.width / 2) (img.height / 2) row col hr hc, if_neg hps]

/-- An interleaved-chroma (pixel stride 2) image used as the C3
witness. -/
def interleavedImage : RawImage :=
  { width := 2, height := 2, timestampNs := 5
    yPlane := { data := some [1, 2, 3, 4], rowStride := 2, pixelStride := 1 }
    uPlane := { data := some [30, 31], rowStride := 2, pixelStride := 2 }
    vPlane := { data := some [40, 41], rowStride := 2, pixelStride := 2 } }

/-- C3 witness: de-interleaving at chroma row 0, column 0 of the
interleaved example. -/
theorem chroma_conversion_u_strides_witness :
    (0 : Nat) < 2 / 2 ∧
    (normalizeImage 2 2 [1, 2, 3, 4] [30, 31] [40, 41] 2 2 2).getD
        (2 * 2 + (0 * (2 / 2) + 0)) 0 =
      ([30, 31] : List Nat).getD (0 * 2 + 0 * 2) 0 ∧
    (normalizeImage 2 2 [1, 2, 3, 4] [30, 31] [40, 41] 2 2 2).getD
        (2 * 2 + (2 / 2 * (2 / 2) + (0 * (2 / 2) + 0))) 0 =
      ([40, 41] : List Nat).getD (0 * 2 + 0 * 2) 0 :=
  ⟨by decide,
   (chroma_conversion_u_strides interleavedImage [1, 2, 3, 4] [30, 31] [40, 41]
      rfl rfl rfl 0 0 (by decide) (by decide)).2.2.2 (by decide)⟩

end NativeSensor
